import Mathlib

/-!
Shallow embedding of selfdrive/pandad/pandad_daemon.py: the safety-mode and
CAN-bridge daemon.  Pure data (health dictionaries, capnp message builders)
becomes Lean structures; every side-effecting call on the panda device or the
parameter store becomes an explicit `Event` in an emitted trace, so theorems
can speak about exactly which device writes a code path issues and in which
order.
-/

namespace Pandad

/-- PANDA_CAN_CNT from pandad_daemon.py. -/
def PANDA_CAN_CNT : Nat := 3

/-- MAX_IR_PANDA_VAL from pandad_daemon.py. -/
def MAX_IR_PANDA_VAL : Nat := 50

/-- CUTOFF_IL from pandad_daemon.py. -/
def CUTOFF_IL : Nat := 400

/-- SATURATE_IL from pandad_daemon.py. -/
def SATURATE_IL : Nat := 1000

/-- FAULT_RELAY_MALFUNCTION from pandad_daemon.py. -/
def FAULT_RELAY_MALFUNCTION : Nat := 0

/-- FAULT_HEARTBEAT_LOOP_WATCHDOG from pandad_daemon.py. -/
def FAULT_HEARTBEAT_LOOP_WATCHDOG : Nat := 26

/-- Enum ordinal of CarParams.SafetyModel.silent (opendbc capnp schema,
external dependency of the daemon). -/
def SafetyModel.silent : Nat := 0

/-- Enum ordinal of CarParams.SafetyModel.elm327 (opendbc capnp schema). -/
def SafetyModel.elm327 : Nat := 3

/-- Enum ordinal of CarParams.SafetyModel.noOutput (opendbc capnp schema). -/
def SafetyModel.noOutput : Nat := 19

/-- One frame of the sendcan message: (address, dat, src), as read off
`msg.address`, `msg.dat`, `msg.src` in can_send. -/
structure CanFrame where
  address : Nat
  dat : List Nat
  src : Nat
deriving DecidableEq

/-- A side-effecting call issued by the daemon on the panda device or on the
parameter store; the daemon functions below return the list of such calls in
program order. -/
inductive Event where
  | setSafetyMode (model : Nat) (param : Nat)
  | setPowerSave (enable : Nat)
  | setAlternativeExperience (mask : Nat)
  | setFanPower (pct : Nat)
  | setIrPower (val : Int)
  | canSendMany (msgs : List (Nat × List Nat × Nat))
  | putObdMultiplexingChanged
deriving DecidableEq

/-- Replays a trace of events over the device's safety-mode register:
every setSafetyMode overwrites it, every other call leaves it unchanged. -/
def final_safety_mode (init : Nat) : List Event → Nat
  | [] => init
  | Event.setSafetyMode m _ :: rest => final_safety_mode m rest
  | _ :: rest => final_safety_mode init rest

/-- True exactly on setSafetyMode events. -/
def is_safety_mode_write : Event → Bool
  | Event.setSafetyMode _ _ => true
  | _ => false

/-- can_send from pandad_daemon.py.  `updated` is `sm.updated['sendcan']`,
`msg_time` is `sm.logMonoTime['sendcan']`, `cur_time` the current monotonic
time in nanoseconds, `fake_send` the FAKESEND environment override, and
`sendcan` the list of frames of the pending batch.  Python's `1e9` compares
exactly with the integer nanosecond difference at these magnitudes, so the
bound is the integer 1000000000. -/
def can_send (updated : Bool) (msg_time cur_time : Int) (fake_send : Bool)
    (sendcan : List CanFrame) : List Event :=
  if !updated then []
  else if cur_time - msg_time < 1000000000 ∧ fake_send = false then
    [Event.canSendMany (sendcan.map (fun m => (m.address, m.dat, m.src)))]
  else []

/-- The fault-bitset decoding loop of send_panda_states: collect, in
increasing order, every f in [FAULT_RELAY_MALFUNCTION,
FAULT_HEARTBEAT_LOOP_WATCHDOG] with `faults_pkt & (1 << f)` nonzero. -/
def fault_list_of (faults_pkt : Nat) : List Nat :=
  (List.range (FAULT_HEARTBEAT_LOOP_WATCHDOG + 1)).filter
    (fun f => faults_pkt &&& (1 <<< f) != 0)

/-- The faults field of the published message: send_panda_states only calls
`ps.init('faults', ...)` when the decoded list is nonempty, so an empty list
leaves the field absent (`none`). -/
def faults_field (faults_pkt : Nat) : Option (List Nat) :=
  if fault_list_of faults_pkt = [] then none else some (fault_list_of faults_pkt)

/-- LEC_STRING_TO_CAPNP from pandad_daemon.py, as an association list in
source order. -/
def LEC_STRING_TO_CAPNP : List (String × String) :=
  [("No error", "noError"),
   ("Stuff error", "stuffError"),
   ("Form error", "formError"),
   ("AckError", "ackError"),
   ("Bit1Error", "bit1Error"),
   ("Bit0Error", "bit0Error"),
   ("CRCError", "crcError"),
   ("NoChange", "noChange")]

/-- `LEC_STRING_TO_CAPNP.get(s, 'noError')`: dictionary lookup with the
fallback default used by fill_panda_can_state. -/
def lec_get (s : String) : String :=
  Option.getD (List.lookup s LEC_STRING_TO_CAPNP) "noError"

/-- The can_health dictionary returned by `panda.can_health(i)`: exactly the
keys read by fill_panda_can_state.  Wire integers are Nat; the four
last-error fields are the LEC strings of the Python panda library. -/
structure CanHealth where
  bus_off : Nat
  bus_off_cnt : Nat
  error_warning : Nat
  error_passive : Nat
  last_error : String
  last_stored_error : String
  last_data_error : String
  last_data_stored_error : String
  receive_error_cnt : Nat
  transmit_error_cnt : Nat
  total_error_cnt : Nat
  total_tx_lost_cnt : Nat
  total_rx_lost_cnt : Nat
  total_tx_cnt : Nat
  total_rx_cnt : Nat
  total_fwd_cnt : Nat
  can_speed : Nat
  can_data_speed : Nat
  canfd_enabled : Nat
  brs_enabled : Nat
  canfd_non_iso : Nat
  irq0_call_rate : Nat
  irq1_call_rate : Nat
  irq2_call_rate : Nat
  can_core_reset_count : Nat
deriving DecidableEq

/-- The PandaCanState capnp builder filled by fill_panda_can_state. -/
structure PandaCanState where
  busOff : Bool
  busOffCnt : Nat
  errorWarning : Bool
  errorPassive : Bool
  lastError : String
  lastStoredError : String
  lastDataError : String
  lastDataStoredError : String
  receiveErrorCnt : Nat
  transmitErrorCnt : Nat
  totalErrorCnt : Nat
  totalTxLostCnt : Nat
  totalRxLostCnt : Nat
  totalTxCnt : Nat
  totalRxCnt : Nat
  totalFwdCnt : Nat
  canSpeed : Nat
  canDataSpeed : Nat
  canfdEnabled : Bool
  brsEnabled : Bool
  canfdNonIso : Bool
  irq0CallRate : Nat
  irq1CallRate : Nat
  irq2CallRate : Nat
  canCoreResetCnt : Nat
deriving DecidableEq

/-- fill_panda_can_state from pandad_daemon.py.  `bool(x)` on a wire integer
is `x != 0`; the four last-error strings go through the LEC dictionary with
its 'noError' fallback. -/
def fill_panda_can_state (ch : CanHealth) : PandaCanState :=
  { busOff := ch.bus_off != 0
    busOffCnt := ch.bus_off_cnt
    errorWarning := ch.error_warning != 0
    errorPassive := ch.error_passive != 0
    lastError := lec_get ch.last_error
    lastStoredError := lec_get ch.last_stored_error
    lastDataError := lec_get ch.last_data_error
    lastDataStoredError := lec_get ch.last_data_stored_error
    receiveErrorCnt := ch.receive_error_cnt
    transmitErrorCnt := ch.transmit_error_cnt
    totalErrorCnt := ch.total_error_cnt
    totalTxLostCnt := ch.total_tx_lost_cnt
    totalRxLostCnt := ch.total_rx_lost_cnt
    totalTxCnt := ch.total_tx_cnt
    totalRxCnt := ch.total_rx_cnt
    totalFwdCnt := ch.total_fwd_cnt
    canSpeed := ch.can_speed
    canDataSpeed := ch.can_data_speed
    canfdEnabled := ch.canfd_enabled != 0
    brsEnabled := ch.brs_enabled != 0
    canfdNonIso := ch.canfd_non_iso != 0
    irq0CallRate := ch.irq0_call_rate
    irq1CallRate := ch.irq1_call_rate
    irq2CallRate := ch.irq2_call_rate
    canCoreResetCnt := ch.can_core_reset_count }

/-- The health dictionary returned by `panda.health()`: exactly the keys
read by send_panda_states and fill_panda_state.  Wire integers are Nat; the
interrupt load is a device-reported rational. -/
structure Health where
  voltage : Nat
  current : Nat
  uptime : Nat
  safety_tx_blocked : Nat
  safety_rx_invalid : Nat
  ignition_line : Nat
  ignition_can : Nat
  controls_allowed : Nat
  tx_buffer_overflow : Nat
  rx_buffer_overflow : Nat
  safety_mode : Nat
  safety_param : Nat
  fault_status : Nat
  power_save_enabled : Nat
  heartbeat_lost : Nat
  alternative_experience : Nat
  car_harness_status : Nat
  interrupt_load : ℚ
  fan_power : Nat
  safety_rx_checks_invalid : Nat
  spi_error_count : Nat
  sbu1_voltage_mV : Nat
  sbu2_voltage_mV : Nat
  faults : Nat
deriving DecidableEq

/-- The PandaState capnp builder filled by fill_panda_state. -/
structure PandaState where
  voltage : Nat
  current : Nat
  uptime : Nat
  safetyTxBlocked : Nat
  safetyRxInvalid : Nat
  ignitionLine : Bool
  ignitionCan : Bool
  controlsAllowed : Bool
  txBufferOverflow : Nat
  rxBufferOverflow : Nat
  pandaType : Nat
  safetyModel : Nat
  safetyParam : Nat
  faultStatus : Nat
  powerSaveEnabled : Bool
  heartbeatLost : Bool
  alternativeExperience : Nat
  harnessStatus : Nat
  interruptLoad : ℚ
  fanPower : Nat
  safetyRxChecksInvalid : Bool
  spiErrorCount : Nat
  sbu1Voltage : ℚ
  sbu2Voltage : ℚ
deriving DecidableEq

/-- fill_panda_state from pandad_daemon.py; the sbu voltages are divided by
1000.0 on report. -/
def fill_panda_state (hw_type : Nat) (h : Health) : PandaState :=
  { voltage := h.voltage
    current := h.current
    uptime := h.uptime
    safetyTxBlocked := h.safety_tx_blocked
    safetyRxInvalid := h.safety_rx_invalid
    ignitionLine := h.ignition_line != 0
    ignitionCan := h.ignition_can != 0
    controlsAllowed := h.controls_allowed != 0
    txBufferOverflow := h.tx_buffer_overflow
    rxBufferOverflow := h.rx_buffer_overflow
    pandaType := hw_type
    safetyModel := h.safety_mode
    safetyParam := h.safety_param
    faultStatus := h.fault_status
    powerSaveEnabled := h.power_save_enabled != 0
    heartbeatLost := h.heartbeat_lost != 0
    alternativeExperience := h.alternative_experience
    harnessStatus := h.car_harness_status
    interruptLoad := h.interrupt_load
    fanPower := h.fan_power
    safetyRxChecksInvalid := h.safety_rx_checks_invalid != 0
    spiErrorCount := h.spi_error_count
    sbu1Voltage := (h.sbu1_voltage_mV : ℚ) / 1000
    sbu2Voltage := (h.sbu2_voltage_mV : ℚ) / 1000 }

/-- The pandaStates message: validity flag, the single PandaState with its
three can states, and the optional faults list (absent when never
initialized). -/
structure PandaStatesMsg where
  valid : Bool
  pandaState : PandaState
  canStates : List PandaCanState
  faults : Option (List Nat)
deriving DecidableEq

/-- The `for i in range(PANDA_CAN_CNT)` collection loop of send_panda_states:
the first failing can_health query aborts the whole tick. -/
def collect_can_healths : List (Option CanHealth) → Option (List CanHealth)
  | [] => some []
  | none :: _ => none
  | some ch :: rest => Option.map (fun l => ch :: l) (collect_can_healths rest)

/-- The spoofing mutation at the top of send_panda_states: when the STARTED
override is set, `health['ignition_line'] = 1`. -/
def spoofed (spoofing_started : Bool) (h : Health) : Health :=
  if spoofing_started then { h with ignition_line := 1 } else h

/-- `ignition_local` as derived in send_panda_states (after spoofing). -/
def ignition_local_of (spoofing_started : Bool) (h : Health) : Bool :=
  (spoofed spoofing_started h).ignition_line != 0 ||
    (spoofed spoofing_started h).ignition_can != 0

/-- send_panda_states from pandad_daemon.py.  `healthOpt` is the result of
the `panda.health()` query (`none` when it raises), `canHealthOpts` the
per-bus `panda.can_health(i)` results in bus order.  The first component is
what the function returns together with the published message (`none` means
nothing was published and the function returned None); the second is the
trace of device writes issued during the call. -/
def send_panda_states (hw_type : Nat) (is_onroad spoofing_started : Bool)
    (healthOpt : Option Health) (canHealthOpts : List (Option CanHealth)) :
    Option (PandaStatesMsg × Bool) × List Event :=
  match healthOpt with
  | none => (none, [])
  | some health0 =>
    match collect_can_healths canHealthOpts with
    | none => (none, [])
    | some can_healths =>
      let health := spoofed spoofing_started health0
      let ignition_local := ignition_local_of spoofing_started health0
      let ev1 := if health.safety_mode = SafetyModel.silent then
        [Event.setSafetyMode SafetyModel.noOutput 0] else []
      let power_save_desired := !ignition_local
      let ev2 := if (health.power_save_enabled != 0) ≠ power_save_desired then
        [Event.setPowerSave (if power_save_desired then 1 else 0)] else []
      let should_close_relay := !ignition_local || !is_onroad
      let ev3 := if should_close_relay = true ∧
          health.safety_mode ≠ SafetyModel.noOutput then
        [Event.setSafetyMode SafetyModel.noOutput 0] else []
      let msg : PandaStatesMsg :=
        { valid := true
          pandaState := fill_panda_state hw_type health
          canStates := can_healths.map fill_panda_can_state
          faults := faults_field health.faults }
      (some (msg, ignition_local), ev1 ++ ev2 ++ ev3)

/-- The parsed CarParams capnp blob as consumed by PandaSafety._set_safety_mode:
the (safetyModel, safetyParam) of the first safetyConfigs entry and the
alternative-experience bitmask. -/
structure CarParamsData where
  safetyModel0 : Nat
  safetyParam0 : Nat
  alternativeExperience : Nat
deriving DecidableEq

/-- The parameter-store keys read by PandaSafety on one configure call. -/
structure ParamsStore where
  obdMultiplexingEnabled : Bool
  firmwareQueryDone : Bool
  controlsReady : Bool
  carParams : Option CarParamsData
deriving DecidableEq

/-- The mutable fields of PandaSafety. -/
structure SafetyState where
  initialized : Bool
  log_once : Bool
  safety_configured : Bool
  prev_obd_multiplexing : Bool
deriving DecidableEq

/-- PandaSafety.__init__: every flag starts false. -/
def SafetyState.start : SafetyState :=
  { initialized := false
    log_once := false
    safety_configured := false
    prev_obd_multiplexing := false }

/-- PandaSafety._update_multiplexing_mode: on first entry force ELM327 with
param 1 (multiplexing disabled); then re-assert ELM327 whenever the
ObdMultiplexingEnabled request differs from the last applied value, with
param 0 when requested and 1 otherwise, and notify via the
ObdMultiplexingChanged parameter write. -/
def update_multiplexing_mode (p : ParamsStore) (st : SafetyState) :
    SafetyState × List Event :=
  let st1 := if !st.initialized then
      { st with prev_obd_multiplexing := false, initialized := true }
    else st
  let ev1 := if !st.initialized then
      [Event.setSafetyMode SafetyModel.elm327 1]
    else []
  let requested := p.obdMultiplexingEnabled
  if requested ≠ st1.prev_obd_multiplexing then
    ({ st1 with prev_obd_multiplexing := requested },
      ev1 ++ [Event.setSafetyMode SafetyModel.elm327 (if requested then 0 else 1),
              Event.putObdMultiplexingChanged])
  else (st1, ev1)

/-- PandaSafety._fetch_car_params: requires FirmwareQueryDone, then (after
arming the one-time log flag) ControlsReady, then returns the CarParams
blob. -/
def fetch_car_params (p : ParamsStore) (st : SafetyState) :
    Option CarParamsData × SafetyState :=
  if !p.firmwareQueryDone then (none, st)
  else
    let st1 := { st with log_once := true }
    if !p.controlsReady then (none, st1)
    else (p.carParams, st1)

/-- PandaSafety._set_safety_mode: set the alternative experience first, then
the first safety configuration's (model, param). -/
def set_safety_mode_events (cp : CarParamsData) : List Event :=
  [Event.setAlternativeExperience cp.alternativeExperience,
   Event.setSafetyMode cp.safetyModel0 cp.safetyParam0]

/-- PandaSafety.configure_safety_mode: onroad and not yet configured runs the
multiplexing handshake and attempts the CarParams fetch, configuring on
success; offroad unconditionally clears initialized, safety_configured and
log_once; onroad while already configured does nothing. -/
def configure_safety_mode (is_onroad : Bool) (p : ParamsStore)
    (st : SafetyState) : SafetyState × List Event :=
  if is_onroad ∧ st.safety_configured = false then
    let r1 := update_multiplexing_mode p st
    let r2 := fetch_car_params p r1.1
    match r2.1 with
    | some cp =>
        ({ r2.2 with safety_configured := true }, r1.2 ++ set_safety_mode_events cp)
    | none => (r2.2, r1.2)
  else if !is_onroad then
    ({ st with initialized := false, safety_configured := false, log_once := false },
      [])
  else (st, [])

/-- The mutable fields of PeripheralStateProcessor used by the fan-control
block: the last fan speed sent and the update-call counter. -/
structure FanControlState where
  prev_fan_speed : Nat
  frame : Nat
deriving DecidableEq

/-- The fan-control block of PeripheralStateProcessor.update, together with
the `self.frame += 1` increment that precedes it.  `updated_device_state` is
`sm.updated['deviceState']`, `fan_speed` the fanSpeedPercentDesired of the
arrived message (unread when none arrived), `no_fan_control` the
NO_FAN_CONTROL override. -/
def fan_control_step (no_fan_control updated_device_state : Bool)
    (fan_speed : Nat) (st : FanControlState) : FanControlState × List Event :=
  let frame := st.frame + 1
  if updated_device_state ∧ no_fan_control = false then
    if fan_speed ≠ st.prev_fan_speed ∨ frame % 100 = 0 then
      ({ prev_fan_speed := fan_speed, frame := frame }, [Event.setFanPower fan_speed])
    else ({ st with frame := frame }, [])
  else ({ st with frame := frame }, [])

/-- The integrated-lines to IR-power mapping of PeripheralStateProcessor.update:
dead band at or below CUTOFF_IL, saturation strictly above SATURATE_IL,
floored linear interpolation between.  The filtered lines value is a Python
float, modelled as a rational; Python's float floor-division is the floor of
the exact quotient for these magnitudes. -/
def ir_power_of (cur_integ_lines : ℚ) : ℚ :=
  if cur_integ_lines ≤ (CUTOFF_IL : ℚ) then 0
  else if (SATURATE_IL : ℚ) < cur_integ_lines then 100
  else (Int.floor (100 * (cur_integ_lines - (CUTOFF_IL : ℚ)) /
      ((SATURATE_IL : ℚ) - (CUTOFF_IL : ℚ))) : ℚ)

/-- Python's round(): nearest integer, ties to even.  The values the daemon
rounds are exact multiples of 1/2 in binary floating point, so the rational
model is exact. -/
def python_round (q : ℚ) : ℤ :=
  if q - Int.floor q < 1 / 2 then Int.floor q
  else if 1 / 2 < q - Int.floor q then Int.floor q + 1
  else if Int.floor q % 2 = 0 then Int.floor q else Int.floor q + 1

/-- `ir_panda = round(self.ir_pwr * MAX_IR_PANDA_VAL / 100)`: the 0-100 power
rescaled to the device's 0-MAX_IR_PANDA_VAL range. -/
def ir_panda_of (ir_pwr : ℚ) : ℤ :=
  python_round (ir_pwr * (MAX_IR_PANDA_VAL : ℚ) / 100)

/-- A can-health sample whose four last-error strings all fall outside the
LEC table. -/
def unknownLecCanHealth : CanHealth :=
  { bus_off := 0, bus_off_cnt := 0, error_warning := 0, error_passive := 0
    last_error := "Unknown LEC"
    last_stored_error := "Mystery"
    last_data_error := "Garbled"
    last_data_stored_error := ""
    receive_error_cnt := 0, transmit_error_cnt := 0, total_error_cnt := 0
    total_tx_lost_cnt := 0, total_rx_lost_cnt := 0, total_tx_cnt := 0
    total_rx_cnt := 7, total_fwd_cnt := 0, can_speed := 5000
    can_data_speed := 20000, canfd_enabled := 1, brs_enabled := 1
    canfd_non_iso := 0, irq0_call_rate := 0, irq1_call_rate := 0
    irq2_call_rate := 0, can_core_reset_count := 0 }

/-- A health sample: ignition off on both sources, safety mode already
noOutput, power save already on, no faults. -/
def sampleHealth : Health :=
  { voltage := 12000, current := 300, uptime := 60, safety_tx_blocked := 0
    safety_rx_invalid := 0, ignition_line := 0, ignition_can := 0
    controls_allowed := 0, tx_buffer_overflow := 0, rx_buffer_overflow := 0
    safety_mode := SafetyModel.noOutput, safety_param := 0, fault_status := 0
    power_save_enabled := 1, heartbeat_lost := 0, alternative_experience := 0
    car_harness_status := 1, interrupt_load := 0, fan_power := 0
    safety_rx_checks_invalid := 0, spi_error_count := 0
    sbu1_voltage_mV := 1800, sbu2_voltage_mV := 1800, faults := 0 }

/-- The parameter store of the first C2 configure call: multiplexing not
requested, firmware query not yet done. -/
def c2_params1 : ParamsStore :=
  { obdMultiplexingEnabled := false, firmwareQueryDone := false
    controlsReady := false, carParams := none }

/-- The parameter store of the later C2 configure calls: firmware query done,
controls ready, CarParams with safetyModel 3, safetyParam 7 and
alternative-experience bitmask 1. -/
def c2_params2 : ParamsStore :=
  { obdMultiplexingEnabled := false, firmwareQueryDone := true
    controlsReady := true, carParams := some ⟨3, 7, 1⟩ }

/-- First configure(true) call of the C2 scenario, from the start state. -/
def c2_step1 : SafetyState × List Event :=
  configure_safety_mode true c2_params1 SafetyState.start

/-- Second configure(true) call of the C2 scenario. -/
def c2_step2 : SafetyState × List Event :=
  configure_safety_mode true c2_params2 c2_step1.1

/-- Third configure(true) call of the C2 scenario. -/
def c2_step3 : SafetyState × List Event :=
  configure_safety_mode true c2_params2 c2_step2.1

/-- Helper: (n &&& (1 << f)) != 0 tests bit f of n. -/
theorem and_one_shift_ne_zero (n f : Nat) :
    (n &&& (1 <<< f) != 0) = n.testBit f := by
  rw [Nat.one_shiftLeft, Nat.and_two_pow]
  cases h : n.testBit f <;> simp [h, Nat.pos_pow_of_pos]

/-- C4: a pending sendcan batch whose timestamp is two seconds older than the
current monotonic time is dropped with no can_send_many call, for any
fake_send setting; a batch 0.1 seconds old (with the FAKESEND override unset,
its default) is forwarded in exactly one can_send_many call carrying exactly
the (address, dat, src) tuples of its frames. -/
theorem c4_can_send_age_gate (mtOld ctOld mtNew ctNew : Int) (fake_send : Bool)
    (oldBatch newBatch : List CanFrame)
    (hOld : ctOld - mtOld = 2 * 1000000000)
    (hNew : ctNew - mtNew = 100000000) :
    can_send true mtOld ctOld fake_send oldBatch = [] ∧
    can_send true mtNew ctNew false newBatch =
      [Event.canSendMany (newBatch.map (fun m => (m.address, m.dat, m.src)))] := by
  constructor
  · have hc : ¬(ctOld - mtOld < 1000000000 ∧ fake_send = false) := by
      rw [hOld]
      intro hc
      exact absurd hc.1 (by norm_num)
    simp [can_send, hc]
  · have hc : ctNew - mtNew < 1000000000 ∧ (false : Bool) = false := by
      rw [hNew]
      exact ⟨by norm_num, rfl⟩
    simp [can_send, hc]

/-- Witness for C4 at concrete times and a concrete one-frame batch. -/
theorem c4_can_send_age_gate_witness :
    can_send true 0 2000000000 false [⟨291, [1, 2], 0⟩] = [] ∧
    can_send true 0 100000000 false [⟨291, [1, 2], 0⟩] =
      [Event.canSendMany [(291, [1, 2], 0)]] :=
  c4_can_send_age_gate 0 2000000000 0 100000000 false [⟨291, [1, 2], 0⟩]
    [⟨291, [1, 2], 0⟩] (by norm_num) (by norm_num)

/-- C5 counterexample: with the FAKESEND override set, a batch two seconds
old is still dropped: can_send issues no can_send_many call, while the claim
says the override makes it submit the frames anyway. -/
theorem c5_fake_send_counterexample :
    can_send true 0 2000000000 true [⟨291, [1, 2], 0⟩] = [] := by decide

/-- C5 amended: with the FAKESEND override set, can_send never calls
can_send_many, whatever the batch age; the override suppresses real sends
rather than bypassing the staleness check. -/
theorem c5_fake_send_never_sends (updated : Bool) (msg_time cur_time : Int)
    (sendcan : List CanFrame) :
    can_send updated msg_time cur_time true sendcan = [] := by
  cases updated <;> simp [can_send]

/-- C7: for a 32-bit fault bitset, the decoded fault list is the strictly
increasing sequence of the set bit positions in the inclusive range [0, 26];
bitset 0b101 decodes to [0, 2]; bitset 0 decodes to the empty sequence, for
which the faults field is omitted (none) rather than sent as an empty
list. -/
theorem c7_fault_bitset_decoding (n : Nat) (_h32 : n < 2 ^ 32) :
    List.Sorted (fun a b => a < b) (fault_list_of n) ∧
    (∀ f, f ∈ fault_list_of n ↔
      f ≤ FAULT_HEARTBEAT_LOOP_WATCHDOG ∧ n.testBit f) ∧
    fault_list_of 5 = [0, 2] ∧ faults_field 5 = some [0, 2] ∧
    fault_list_of 0 = [] ∧ faults_field 0 = none := by
  refine ⟨?_, ?_, by decide, by decide, by decide, by decide⟩
  · exact List.Sorted.filter _ (List.pairwise_lt_range _)
  · intro f
    simp [fault_list_of, List.mem_filter, List.mem_range, and_one_shift_ne_zero,
      Nat.lt_succ_iff, FAULT_HEARTBEAT_LOOP_WATCHDOG]

/-- Witness for C7 at the bitset 0b101. -/
theorem c7_fault_bitset_decoding_witness : fault_list_of 5 = [0, 2] :=
  (c7_fault_bitset_decoding 5 (by norm_num)).2.2.1

/-- C10: a last-error string outside the eight keys of LEC_STRING_TO_CAPNP is
mapped by fill_panda_can_state to the fallback 'noError' value, in each of
the four last-error fields, with no distinct unknown-error variant. -/
theorem c10_unknown_lec_fallback (ch : CanHealth) :
    (List.lookup ch.last_error LEC_STRING_TO_CAPNP = none →
      (fill_panda_can_state ch).lastError = "noError") ∧
    (List.lookup ch.last_stored_error LEC_STRING_TO_CAPNP = none →
      (fill_panda_can_state ch).lastStoredError = "noError") ∧
    (List.lookup ch.last_data_error LEC_STRING_TO_CAPNP = none →
      (fill_panda_can_state ch).lastDataError = "noError") ∧
    (List.lookup ch.last_data_stored_error LEC_STRING_TO_CAPNP = none →
      (fill_panda_can_state ch).lastDataStoredError = "noError") := by
  refine ⟨fun h => ?_, fun h => ?_, fun h => ?_, fun h => ?_⟩ <;>
    simp [fill_panda_can_state, lec_get, h]

/-- Witness for C10 on a can health with unknown last-error strings. -/
theorem c10_unknown_lec_fallback_witness :
    List.lookup unknownLecCanHealth.last_error LEC_STRING_TO_CAPNP = none ∧
    (fill_panda_can_state unknownLecCanHealth).lastError = "noError" :=
  ⟨by decide, (c10_unknown_lec_fallback unknownLecCanHealth).1 (by decide)⟩

/-- C9 counterexample: an update call on which the frame counter reaches 100
(a 100th call), with fan control enabled, the target equal to the last sent
value, but no deviceState message arrived, issues no set_fan_power command:
the 100-call refresh is gated behind a deviceState arrival, so it is not
unconditional. -/
theorem c9_fan_refresh_counterexample :
    (fan_control_step false false 30 ⟨30, 99⟩).1.frame = 100 ∧
    (fan_control_step false false 30 ⟨30, 99⟩).2 = [] := by decide

/-- C9 amended: with fan control enabled, a set_fan_power command is issued
exactly when a deviceState update arrived and either the target differs from
the last sent value or the call is a 100th call; with no deviceState update
no command is issued, even on the 100-call cadence; and whenever a command is
issued it is exactly one set_fan_power. -/
theorem c9_fan_command_iff (updated : Bool) (fan_speed : Nat)
    (st : FanControlState) :
    ((fan_control_step false updated fan_speed st).2 =
        [Event.setFanPower fan_speed] ↔
      updated = true ∧
        (fan_speed ≠ st.prev_fan_speed ∨ (st.frame + 1) % 100 = 0)) ∧
    (fan_control_step false false fan_speed st).2 = [] ∧
    ((fan_control_step false updated fan_speed st).2 = [] ∨
      (fan_control_step false updated fan_speed st).2 =
        [Event.setFanPower fan_speed]) := by
  refine ⟨?_, by simp [fan_control_step], ?_⟩
  · cases updated
    · simp [fan_control_step]
    · by_cases hsend : fan_speed ≠ st.prev_fan_speed ∨ (st.frame + 1) % 100 = 0
      · simp [fan_control_step, hsend]
      · simp [fan_control_step, hsend]
  · cases updated
    · simp [fan_control_step]
    · by_cases hsend : fan_speed ≠ st.prev_fan_speed ∨ (st.frame + 1) % 100 = 0
      · exact Or.inr (by simp [fan_control_step, hsend])
      · exact Or.inl (by simp [fan_control_step, hsend])

/-- C2: from the start state, configure(true) with multiplexing not requested
and the firmware query unfinished issues exactly one
set_safety_mode(ELM327, 1) and leaves the machine unconfigured; once the
firmware query is done, controls are ready and CarParams carries
(safetyModel 3, safetyParam 7, alternativeExperience 1), the next
configure(true) issues exactly set_alternative_experience(1) then
set_safety_mode(3, 7) and marks the machine configured; a third
configure(true) issues nothing and leaves the state unchanged. -/
theorem c2_state_machine_walk :
    c2_step1.2 = [Event.setSafetyMode SafetyModel.elm327 1] ∧
    c2_step1.1.safety_configured = false ∧
    c2_step2.2 = [Event.setAlternativeExperience 1, Event.setSafetyMode 3 7] ∧
    c2_step2.1.safety_configured = true ∧
    c2_step3.2 = [] ∧
    c2_step3.1 = c2_step2.1 := by decide

/-- C3: a configure(false) call, from any state of the machine and any
parameter-store contents, clears initialized, safety_configured and log_once
and issues no device write at all. -/
theorem c3_offroad_resets (p : ParamsStore) (st : SafetyState) :
    (configure_safety_mode false p st).1.initialized = false ∧
    (configure_safety_mode false p st).1.safety_configured = false ∧
    (configure_safety_mode false p st).1.log_once = false ∧
    (configure_safety_mode false p st).2 = [] := by
  simp [configure_safety_mode]

/-- C6: if the health query raises or the can-health query of any of the 3
buses raises, send_panda_states publishes nothing for the tick, issues no
device write and returns None; when all four queries succeed it publishes a
message marked valid and returns the ignition state. -/
theorem c6_all_or_nothing (hw : Nat) (is_onroad spoofing : Bool)
    (healthOpt : Option Health) (c0 c1 c2 : Option CanHealth) :
    ((healthOpt = none ∨ c0 = none ∨ c1 = none ∨ c2 = none) →
      send_panda_states hw is_onroad spoofing healthOpt [c0, c1, c2] =
        (none, [])) ∧
    (∀ h ch0 ch1 ch2, healthOpt = some h → c0 = some ch0 → c1 = some ch1 →
      c2 = some ch2 →
      ∃ m ig,
        (send_panda_states hw is_onroad spoofing healthOpt [c0, c1, c2]).1 =
          some (m, ig) ∧ m.valid = true) := by
  constructor
  · rintro (rfl | rfl | rfl | rfl)
    · rfl
    · cases healthOpt <;> rfl
    · cases healthOpt <;> cases c0 <;> rfl
    · cases healthOpt <;> cases c0 <;> cases c1 <;> rfl
  · rintro h ch0 ch1 ch2 rfl rfl rfl rfl
    exact ⟨_, _, rfl, rfl⟩

/-- Witness for C6: the failing side at a concrete raising health query, and
the succeeding side at a concrete all-healthy tick. -/
theorem c6_all_or_nothing_witness :
    send_panda_states 0 true false none
      [some unknownLecCanHealth, some unknownLecCanHealth,
        some unknownLecCanHealth] = (none, []) ∧
    ∃ m ig,
      (send_panda_states 0 true false (some sampleHealth)
        [some unknownLecCanHealth, some unknownLecCanHealth,
          some unknownLecCanHealth]).1 = some (m, ig) ∧ m.valid = true :=
  ⟨(c6_all_or_nothing 0 true false none (some unknownLecCanHealth)
      (some unknownLecCanHealth) (some unknownLecCanHealth)).1 (Or.inl rfl),
   (c6_all_or_nothing 0 true false (some sampleHealth)
      (some unknownLecCanHealth) (some unknownLecCanHealth)
      (some unknownLecCanHealth)).2 sampleHealth unknownLecCanHealth
      unknownLecCanHealth unknownLecCanHealth rfl rfl rfl rfl⟩

/-- Helper: spoofing only touches the ignition_line field. -/
theorem spoofed_safety_mode (b : Bool) (h : Health) :
    (spoofed b h).safety_mode = h.safety_mode := by
  cases b <;> rfl

/-- Helper: the trace of device writes of a fully successful
send_panda_states tick, by unfolding the definition. -/
theorem send_panda_states_trace (hw : Nat) (is_onroad spoofing : Bool)
    (h : Health) (ch0 ch1 ch2 : CanHealth) :
    (send_panda_states hw is_onroad spoofing (some h)
        [some ch0, some ch1, some ch2]).2 =
      (if (spoofed spoofing h).safety_mode = SafetyModel.silent then
          [Event.setSafetyMode SafetyModel.noOutput 0] else []) ++
        ((if ((spoofed spoofing h).power_save_enabled != 0)
              ≠ (!(ignition_local_of spoofing h)) then
            [Event.setPowerSave (if (!(ignition_local_of spoofing h)) then 1 else 0)]
          else []) ++
          (if (!(ignition_local_of spoofing h) || !is_onroad) = true ∧
              (spoofed spoofing h).safety_mode ≠ SafetyModel.noOutput then
            [Event.setSafetyMode SafetyModel.noOutput 0] else [])) := by
  show (if _ then _ else _) ++ (if _ then _ else _) ++ (if _ then _ else _) = _
  rw [List.append_assoc]

/-- C1: on a tick where the health query and all three can-health queries
succeed and either ignition-local is false or the device is not onroad,
replaying the issued writes over the device's safety-mode register (whose
starting value the health query reported) ends at noOutput; and when the
queried health already reports noOutput the trace contains no setSafetyMode
write at all. -/
theorem c1_forced_no_output (hw : Nat) (is_onroad spoofing : Bool)
    (h : Health) (ch0 ch1 ch2 : CanHealth)
    (hgate : ignition_local_of spoofing h = false ∨ is_onroad = false) :
    final_safety_mode h.safety_mode
        (send_panda_states hw is_onroad spoofing (some h)
          [some ch0, some ch1, some ch2]).2 = SafetyModel.noOutput ∧
    (h.safety_mode = SafetyModel.noOutput →
      ((send_panda_states hw is_onroad spoofing (some h)
          [some ch0, some ch1, some ch2]).2).filter is_safety_mode_write
        = []) := by
  have hrelay : (!(ignition_local_of spoofing h) || !is_onroad) = true := by
    rcases hgate with hg | hg <;> simp [hg]
  rw [send_panda_states_trace hw is_onroad spoofing h ch0 ch1 ch2,
    spoofed_safety_mode, hrelay]
  by_cases hp : ((spoofed spoofing h).power_save_enabled != 0)
      = (!(ignition_local_of spoofing h)) <;>
    by_cases hm19 : h.safety_mode = SafetyModel.noOutput <;>
      by_cases hm0 : h.safety_mode = SafetyModel.silent <;>
        simp_all [final_safety_mode, is_safety_mode_write,
          SafetyModel.noOutput, SafetyModel.silent]

/-- Witness for C1: an offroad tick with ignition off and a health already
reporting noOutput. -/
theorem c1_forced_no_output_witness :
    final_safety_mode sampleHealth.safety_mode
        (send_panda_states 0 false false (some sampleHealth)
          [some unknownLecCanHealth, some unknownLecCanHealth,
            some unknownLecCanHealth]).2 = SafetyModel.noOutput :=
  (c1_forced_no_output 0 false false sampleHealth unknownLecCanHealth
    unknownLecCanHealth unknownLecCanHealth (Or.inl (by decide))).1

/-- Helper: python_round stays inside [0, 50] on inputs inside [0, 50]. -/
theorem python_round_mem_range (q : ℚ) (h0 : 0 ≤ q) (h1 : q ≤ 50) :
    0 ≤ python_round q ∧ python_round q ≤ 50 := by
  have hf0 : (0 : ℤ) ≤ ⌊q⌋ := Int.le_floor.mpr (by exact_mod_cast h0)
  have hf1 : ⌊q⌋ ≤ 50 := by
    have h := Int.floor_le_floor (α := ℚ) h1
    simpa using h
  have hfl : (⌊q⌋ : ℚ) ≤ q := Int.floor_le q
  unfold python_round
  split
  · exact ⟨hf0, hf1⟩
  · next hhalf =>
      have h49 : ⌊q⌋ ≤ 49 := by
        have : (⌊q⌋ : ℚ) + 1 / 2 ≤ q := by linarith [not_lt.mp hhalf]
        have : (⌊q⌋ : ℚ) < 50 := by linarith
        exact_mod_cast Int.lt_add_one_iff.mp (by exact_mod_cast this)
      split
      · exact ⟨by omega, by omega⟩
      · split <;> exact ⟨by omega, by omega⟩

/-- C8: the IR power computed from a filtered integrated-lines value L is 0
when L is at or below 400, 100 when L is strictly above 1000, and the floor
of 100*(L-400)/600 in between; in particular 400 maps to 0, 700 to 50, 1000
to 100 and 300 to 0; the power always lies in [0, 100], and the value sent
to the device is this power rescaled by 50/100 to the device's 0-50 range,
staying inside [0, 50], with power 0 sent as 0, power 50 as 25 and power 100
as 50. -/
theorem c8_ir_power_map (L : ℚ) :
    (L ≤ 400 → ir_power_of L = 0) ∧
    (1000 < L → ir_power_of L = 100) ∧
    (400 < L → L ≤ 1000 →
      ir_power_of L = (Int.floor (100 * (L - 400) / 600) : ℚ)) ∧
    ir_power_of 400 = 0 ∧ ir_power_of 700 = 50 ∧ ir_power_of 1000 = 100 ∧
    ir_power_of 300 = 0 ∧
    0 ≤ ir_power_of L ∧ ir_power_of L ≤ 100 ∧
    ir_panda_of (ir_power_of L) =
      python_round (ir_power_of L * (MAX_IR_PANDA_VAL : ℚ) / 100) ∧
    0 ≤ ir_panda_of (ir_power_of L) ∧ ir_panda_of (ir_power_of L) ≤ 50 ∧
    ir_panda_of 0 = 0 ∧ ir_panda_of 50 = 25 ∧ ir_panda_of 100 = 50 := by
  have hC : (CUTOFF_IL : ℚ) = 400 := by norm_num [CUTOFF_IL]
  have hS : (SATURATE_IL : ℚ) = 1000 := by norm_num [SATURATE_IL]
  have hM : (MAX_IR_PANDA_VAL : ℚ) = 50 := by norm_num [MAX_IR_PANDA_VAL]
  have hbounds : 0 ≤ ir_power_of L ∧ ir_power_of L ≤ 100 := by
    unfold ir_power_of
    rw [hC, hS]
    split
    · norm_num
    · split
      · norm_num
      · next hlow hhigh =>
          have hl : (400 : ℚ) < L := not_le.mp hlow
          have hh : L ≤ 1000 := not_lt.mp hhigh
          constructor
          · have : (0 : ℤ) ≤ ⌊100 * (L - 400) / (1000 - 400)⌋ := by
              apply Int.le_floor.mpr
              push_cast
              apply div_nonneg (by linarith) (by norm_num)
            exact_mod_cast this
          · have : ⌊100 * (L - 400) / (1000 - 400)⌋ ≤ 100 := by
              have hq : 100 * (L - 400) / (1000 - 400) ≤ 100 := by
                rw [div_le_iff₀ (by norm_num)]
                linarith
              calc ⌊100 * (L - 400) / (1000 - 400)⌋ ≤ ⌊(100 : ℚ)⌋ :=
                    Int.floor_le_floor hq
                _ = 100 := by norm_num
            exact_mod_cast this
  have hsent := python_round_mem_range (ir_power_of L * (MAX_IR_PANDA_VAL : ℚ) / 100)
    (by rw [hM]; exact div_nonneg (mul_nonneg hbounds.1 (by norm_num)) (by norm_num))
    (by rw [hM]; rw [div_le_iff₀ (by norm_num)]; nlinarith [hbounds.1, hbounds.2])
  refine ⟨?_, ?_, ?_, ?_, ?_, ?_, ?_, hbounds.1, hbounds.2, rfl, hsent.1, hsent.2,
    ?_, ?_, ?_⟩
  · intro hL
    unfold ir_power_of
    rw [hC, if_pos hL]
  · intro hL
    unfold ir_power_of
    rw [hC, hS, if_neg (by linarith), if_pos hL]
  · intro hl hh
    unfold ir_power_of
    rw [hC, hS, if_neg (by linarith), if_neg (by linarith)]
    norm_num
  · unfold ir_power_of
    rw [hC, if_pos (by norm_num)]
  · unfold ir_power_of
    rw [hC, hS, if_neg (by norm_num), if_neg (by norm_num)]
    norm_num
  · unfold ir_power_of
    rw [hC, hS, if_neg (by norm_num), if_neg (by norm_num)]
    norm_num
  · unfold ir_power_of
    rw [hC, if_pos (by norm_num)]
  · unfold ir_panda_of python_round
    rw [hM]
    norm_num
  · unfold ir_panda_of python_round
    rw [hM]
    rw [show (50 : ℚ) * 50 / 100 = ((25 : ℤ) : ℚ) by norm_num, Int.floor_intCast]
    norm_num
  · unfold ir_panda_of python_round
    rw [hM]
    rw [show (100 : ℚ) * 50 / 100 = ((50 : ℤ) : ℚ) by norm_num, Int.floor_intCast]
    norm_num

/-- Witness for C8 at the linear midpoint L = 700. -/
theorem c8_ir_power_map_witness :
    ir_power_of 700 = (Int.floor ((100 : ℚ) * (700 - 400) / 600) : ℚ) :=
  (c8_ir_power_map 700).2.2.1 (by norm_num) (by norm_num)

end Pandad
